import Mathlib

/-!
Verification of `src/Stacking.py`: a Streamlit page that loads a serialized
stacking regressor, collects twelve pharmacokinetic features from sidebar
widgets, predicts a drug concentration on button press, and displays three
static SHAP explanation images with fallback warnings.

The script is embedded shallowly: each Streamlit call that shows something
becomes a `UIEvent`; a run of the script is the list of events it emits, the
list of calls it makes to the loaded model's `predict`, and whether the
script aborted with an uncaught exception.  The external model artifact is
an abstract `predict` function supplied by the environment; file presence
and widget inputs are also environment data.  Display texts of `st.write`
paragraphs are carried verbatim modulo surrounding whitespace.
-/

/-- Outcome of `stacking_regressor.predict` on a 2-D input array: either a
result array or the text of a raised exception (caught by the script). -/
structure Model where
  predict : List (List ℚ) → Except String (List ℚ)

/-- Raw user interaction with the sidebar widgets: the index chosen in the
gender `selectbox` and the value the user tries to set in each
`number_input`. -/
structure RawInputs where
  sexIdx : Nat
  age : ℚ
  wt : ℚ
  singleDose : ℚ
  dailyDose : ℚ
  scr : ℚ
  clcr : ℚ
  bun : ℚ
  alt : ℚ
  ast : ℚ
  cl : ℚ
  v : ℚ

/-- The environment one run of the script executes in: what `joblib.load`
returns for a given path, whether the `st.title`/`st.write` block raises (and
with what message), the widget interaction, whether the Predict button was
pressed, and which image files exist on disk. -/
structure Env where
  loadModel : String → Except String Model
  titleFails : Option String
  raw : RawInputs
  predictButton : Bool
  files : String → Bool

/-- One user-visible Streamlit output. -/
inductive UIEvent where
  | success (msg : String)
  | error (msg : String)
  | warning (msg : String)
  | title (s : String)
  | header (s : String)
  | subheader (s : String)
  | write (s : String)
  | image (file : String) (caption : String)
  | markdown (s : String)
  | predictionShown (value : ℚ)
deriving DecidableEq

/-- Result of one run of the script. -/
structure RunResult where
  events : List UIEvent
  aborted : Bool
  predictCalls : List (List (List ℚ))
deriving DecidableEq

/-- The convention path `model_path = "stacking_regressor_model.pkl"` (line 36). -/
def model_path : String := "stacking_regressor_model.pkl"

/-- File name `first_layer_img` (line 93). -/
def first_layer_img : String :=
  "SHAP Feature Importance of Base Learners in the First Layer of Stacking Model.png"

/-- File name `meta_layer_img` (line 103). -/
def meta_layer_img : String :=
  "SHAP Contribution Analysis for the Meta-Learner in the Second Layer of Stacking Regressor.png"

/-- File name `overall_img` (line 113). -/
def overall_img : String :=
  "Based on the overall feature contribution analysis of SHAP to the stacking model.png"

/-- Streamlit `st.sidebar.number_input(label, min_value, max_value, value)`
returns a value guaranteed to lie within `[min_value, max_value]`; the widget
enforcement is modelled by clamping the user-requested value. -/
def number_input (minv maxv value : ℚ) : ℚ := max minv (min maxv value)

/-- Streamlit `st.sidebar.selectbox(label, options)` returns one of the
options; the user's choice is modelled as an index into the option list. -/
def selectbox (options : List ℚ) (idx : Nat) : ℚ :=
  options.getD (idx % options.length) 0

/-- The twelve widget-returned feature values (lines 58-69). -/
structure FeatureValues where
  SEX : ℚ
  AGE : ℚ
  WT : ℚ
  Single_Dose : ℚ
  Daily_Dose : ℚ
  SCR : ℚ
  CLCR : ℚ
  BUN : ℚ
  ALT : ℚ
  AST : ℚ
  CL : ℚ
  V : ℚ

/-- The sidebar widgets of lines 58-69 applied to the raw interaction. -/
def widgetValues (r : RawInputs) : FeatureValues where
  SEX := selectbox [0, 1] r.sexIdx
  AGE := number_input 0 18 r.age
  WT := number_input 0 100 r.wt
  Single_Dose := number_input 0 60 r.singleDose
  Daily_Dose := number_input 0 2400 r.dailyDose
  SCR := number_input 0 150 r.scr
  CLCR := number_input 0 200 r.clcr
  BUN := number_input 0 50 r.bun
  ALT := number_input 0 150 r.alt
  AST := number_input 0 150 r.ast
  CL := number_input 0 100 r.cl
  V := number_input 0 1000 r.v

/-- The 12-element feature row in the order of line 78. -/
def featureList (f : FeatureValues) : List ℚ :=
  [f.SEX, f.AGE, f.WT, f.Single_Dose, f.Daily_Dose, f.SCR, f.CLCR, f.BUN,
   f.ALT, f.AST, f.CL, f.V]

/-- Line 78, `np.array([...]).reshape(1, -1)`: the single-row 2-D array. -/
def input_array (f : FeatureValues) : List (List ℚ) := [featureList f]

/-- Message of line 39. -/
def loadSuccessMsg : String := "Model loaded successfully!"

/-- Text of the IndexError Python raises when `predict` returns an empty
array and line 79 indexes `[0]` into it. -/
def indexErrorText : String := "index 0 is out of bounds for axis 0 with size 0"

/-- Caption of line 96. -/
def firstCaption : String := "SHAP contribution analysis of the first-layer base learners"

/-- Caption of line 106. -/
def metaCaption : String := "SHAP contribution analysis of the second-layer meta-learner"

/-- Caption of line 116. -/
def overallCaption : String := "SHAP contribution analysis of the overall Stacking model"

/-- Warning of line 98. -/
def firstWarn : String := "SHAP image file for the first-layer base learners not found."

/-- Warning of line 108. -/
def metaWarn : String := "SHAP image file for the second-layer meta-learner not found."

/-- Warning of line 118. -/
def overallWarn : String := "SHAP image file for the overall Stacking model not found."

/-- The `st.title`/`st.write` block of lines 45-51: normally it shows the
title and the intro paragraph; if the block raises, the handler shows
`st.error` instead and execution continues. -/
def titleEvents : Option String → List UIEvent
  | none =>
      [UIEvent.title "📊 Stacking Model Prediction and SHAP Visualization",
       UIEvent.write "By inputting feature values, you can obtain the model's prediction and understand the contribution of each feature using SHAP analysis."]
  | some e => [UIEvent.error ("Error setting page title: " ++ e)]

/-- The sidebar header and prompt of lines 54-55. -/
def sidebarEvents : List UIEvent :=
  [UIEvent.header "Feature Input Area",
   UIEvent.write "Please input feature values:"]

/-- The prediction block of lines 75-82, entered when the button is pressed:
header, then a try block assembling `input_array`, calling `predict`, and
showing element 0; any exception is shown via `st.error`.  Indexing `[0]`
into an empty result raises an IndexError, caught by the same handler. -/
def predictionEvents (m : Model) (f : FeatureValues) : List UIEvent :=
  UIEvent.header "Prediction Result (mg/L)" ::
  match m.predict (input_array f) with
  | Except.error e => [UIEvent.error ("Error during prediction: " ++ e)]
  | Except.ok ys =>
      match ys with
      | [] => [UIEvent.error ("Error during prediction: " ++ indexErrorText)]
      | y :: _ => [UIEvent.predictionShown y]

/-- One image section (lines 91-98, 101-108, 111-118): subheader and
description, then the image if `Image.open` succeeds or the fallback warning
on `FileNotFoundError` (the file is absent). -/
def imageSection (files : String → Bool) (sub desc file caption warnMsg : String) :
    List UIEvent :=
  [UIEvent.subheader sub, UIEvent.write desc] ++
    (if files file then [UIEvent.image file caption] else [UIEvent.warning warnMsg])

/-- The visualization part of lines 85-118 followed by the footer of lines
121-128. -/
def vizEvents (files : String → Bool) : List UIEvent :=
  [UIEvent.header "SHAP Visualization Analysis",
   UIEvent.write "The following charts display the model's SHAP analysis results, including the feature contributions of the first-layer base learners, the second-layer meta-learner, and the overall Stacking model."] ++
  imageSection files "1. First-layer Base Learners"
    "Feature contribution analysis of the base learners (GBDT, XGBoost, LightGBM, CatBoost, TabNet, LASSO, etc.)"
    first_layer_img firstCaption firstWarn ++
  imageSection files "2. Second-layer Meta-Learner"
    "Feature contribution analysis of the meta-learner (Linear Regression)"
    meta_layer_img metaCaption metaWarn ++
  imageSection files "3. Overall Stacking Model"
    "Feature contribution analysis of the overall Stacking model"
    overall_img overallCaption overallWarn ++
  [UIEvent.markdown "---",
   UIEvent.header "Summary",
   UIEvent.write "Through this page, you can: 1. Perform real-time predictions using input feature values. 2. Gain an intuitive understanding of the feature contributions of the first-layer base learners, the second-layer meta-learner, and the overall Stacking model. These analyses help to deeply understand the model's prediction logic and the importance of features."]

/-- The whole script, given the outcome of `joblib.load(model_path)`: on load
failure the handler shows `st.error` and re-raises (line 42), so the run
aborts with only that event; on success the script emits `st.success`, the
title block, the sidebar, the prediction block when the button was pressed,
and the visualization sections. -/
def runScriptCore (load : Except String Model) (t : Option String)
    (r : RawInputs) (button : Bool) (files : String → Bool) : RunResult :=
  match load with
  | Except.error err =>
      { events := [UIEvent.error ("Failed to load model: " ++ err)],
        aborted := true,
        predictCalls := [] }
  | Except.ok m =>
      { events :=
          UIEvent.success loadSuccessMsg ::
          (titleEvents t ++ sidebarEvents ++
            (if button then predictionEvents m (widgetValues r) else []) ++
            vizEvents files),
        aborted := false,
        predictCalls := if button then [input_array (widgetValues r)] else [] }

/-- One run of `src/Stacking.py` in environment `e`.  The only path `runScript`
ever gives to `joblib.load` is the convention constant `model_path`. -/
def runScript (e : Env) : RunResult :=
  runScriptCore (e.loadModel model_path) e.titleFails e.raw e.predictButton e.files

/-! ### The `TabNetRegressorWrapper` adapter (lines 17-33)

`X` arguments may be a pandas DataFrame or a NumPy 2-D array; `y` arguments a
pandas Series or a NumPy 1-D array.  Both carry the same rational matrix or
vector of values; `.values` of a DataFrame/Series is the underlying array.
The wrapped `TabNetRegressor` is third-party: its `fit` is modelled as
recording the exact arguments it was delegated, and its `predict` as an
abstract function of the recorded fit history and the input array, returning
a 2-D array as the real regressor does. -/

/-- An `X` argument: DataFrame or 2-D ndarray over the same values. -/
inductive XInput where
  | dataFrame (values : List (List ℚ))
  | ndarray (values : List (List ℚ))
deriving DecidableEq

/-- Lines 23 and 32, `X.values if isinstance(X, pd.DataFrame) else X`. -/
def XInput.toValues : XInput → List (List ℚ)
  | XInput.dataFrame v => v
  | XInput.ndarray v => v

/-- A `y` argument: Series or 1-D ndarray over the same values. -/
inductive YInput where
  | series (values : List ℚ)
  | ndarray (values : List ℚ)
deriving DecidableEq

/-- Line 25, `y.values if isinstance(y, pd.Series) else y`. -/
def YInput.toValues : YInput → List ℚ
  | YInput.series v => v
  | YInput.ndarray v => v

/-- Line 26, `y.reshape(-1, 1)` on a 1-D array of length n: the (n, 1) column array. -/
def reshapeColumn (l : List ℚ) : List (List ℚ) := l.map (fun a => [a])

/-- NumPy `.flatten()` on a 2-D array (line 33). -/
def np_flatten (m : List (List ℚ)) : List ℚ := m.flatten

/-- The wrapped third-party `TabNetRegressor`: `fitCalls` is the history of
`(X, y)` argument pairs its `fit` received, `predictFn` its prediction
behaviour as a function of that history. -/
structure TabNet where
  fitCalls : List (List (List ℚ) × List (List ℚ))
  predictFn : List (List (List ℚ) × List (List ℚ)) → List (List ℚ) → List (List ℚ)

/-- Line 27, `self.model.fit(X, y, **kwargs)`: the regressor absorbs the
delegated arguments. -/
def TabNet.fit (t : TabNet) (X y : List (List ℚ)) : TabNet :=
  { t with fitCalls := t.fitCalls ++ [(X, y)] }

/-- Line 33, `self.model.predict(X, **kwargs)`: a 2-D result determined by
the fit history and the input array. -/
def TabNet.predict (t : TabNet) (X : List (List ℚ)) : List (List ℚ) :=
  t.predictFn t.fitCalls X

/-- The adapter class of lines 17-33, holding its wrapped regressor. -/
structure TabNetRegressorWrapper where
  model : TabNet

/-- Method `fit` of the adapter (lines 21-28): convert `X` to its array,
convert `y` to its array and reshape it to a two-dimensional column, delegate
to the wrapped model's `fit`, and return self (functionally: the wrapper with
the updated wrapped model). -/
def TabNetRegressorWrapper.fit (w : TabNetRegressorWrapper) (X : XInput) (y : YInput) :
    TabNetRegressorWrapper :=
  { model := w.model.fit X.toValues (reshapeColumn y.toValues) }

/-- Method `predict` of the adapter (lines 30-33): convert `X` to its array,
delegate to the wrapped model's `predict`, and flatten the result. -/
def TabNetRegressorWrapper.predict (w : TabNetRegressorWrapper) (X : XInput) : List ℚ :=
  np_flatten (w.model.predict X.toValues)

/-! ### Classification of surfaced failure messages and concrete environments -/

/-- True exactly for the user-visible failure outputs: `st.error` and
`st.warning` events. -/
def isFailureEvent : UIEvent → Bool
  | UIEvent.error _ => true
  | UIEvent.warning _ => true
  | _ => false

/-- True exactly for a shown numeric prediction. -/
def isShownEvent : UIEvent → Bool
  | UIEvent.predictionShown _ => true
  | _ => false

/-- The shown numeric predictions of a run, in order. -/
def shownPredictions (r : RunResult) : List UIEvent :=
  r.events.filter isShownEvent

/-- The event is the message of the model-load catch site (lines 40-42). -/
def fromLoadFailure (ev : UIEvent) : Prop :=
  ∃ s, ev = UIEvent.error ("Failed to load model: " ++ s)

/-- The event is the message of the page-title catch site (lines 50-51). -/
def fromTitleFailure (ev : UIEvent) : Prop :=
  ∃ s, ev = UIEvent.error ("Error setting page title: " ++ s)

/-- The event is the message of the prediction catch site (lines 81-82). -/
def fromPredictionFailure (ev : UIEvent) : Prop :=
  ∃ s, ev = UIEvent.error ("Error during prediction: " ++ s)

/-- The event is one of the three missing-image fallback warnings
(lines 98, 108, 118). -/
def fromMissingImage (ev : UIEvent) : Prop :=
  ev = UIEvent.warning firstWarn ∨ ev = UIEvent.warning metaWarn ∨
    ev = UIEvent.warning overallWarn

/-- Formalization of the claim that errors are surfaced at exactly three
points: in every run, every user-visible failure output comes from the
model-load site, the prediction site, or a missing-image fallback. -/
def errorsAtThreePointsOnly : Prop :=
  ∀ (e : Env) (ev : UIEvent), ev ∈ (runScript e).events →
    isFailureEvent ev = true →
      fromLoadFailure ev ∨ fromPredictionFailure ev ∨ fromMissingImage ev

/-- A concrete model whose predict always returns the 1-element array [7]. -/
def demoModel : Model := { predict := fun _ => Except.ok [7] }

/-- A concrete widget interaction (the script's default values). -/
def demoRaw : RawInputs where
  sexIdx := 1
  age := 5
  wt := 25
  singleDose := 30
  dailyDose := 450
  scr := 30
  clcr := 90
  bun := 5
  alt := 18
  ast := 18
  cl := 77 / 20
  v := 10

/-- A concrete environment: model loads, title block fine, button pressed,
all image files present. -/
def demoEnv : Env where
  loadModel := fun _ => Except.ok demoModel
  titleFails := none
  raw := demoRaw
  predictButton := true
  files := fun _ => true

/-- Like `demoEnv` but the title block raises and all image files are
absent. -/
def demoEnvAlt : Env :=
  { demoEnv with titleFails := some "boom", files := fun _ => false }

/-- A concrete environment in which `joblib.load` raises. -/
def demoEnvLoadFail : Env :=
  { demoEnv with loadModel := fun _ => Except.error "oops" }

/-! ### Helper lemmas -/

theorem string_ne_append_of_get (a b s : String) (n : Nat) (c d : Char)
    (hn : n < b.data.length) (ha : a.data[n]? = some c) (hb : b.data[n]? = some d)
    (hcd : c ≠ d) : a ≠ b ++ s := by
  intro h
  have h2 : a.data = b.data ++ s.data := by rw [h, String.data_append]
  rw [h2, List.getElem?_append_left hn] at ha
  exact hcd (Option.some.inj (ha.symm.trans hb))

theorem titleEvents_classify (t : Option String) (ev : UIEvent)
    (h : ev ∈ titleEvents t) (hf : isFailureEvent ev = true) :
    fromTitleFailure ev := by
  cases t with
  | none =>
      simp [titleEvents] at h
      rcases h with h | h <;> subst h <;> simp [isFailureEvent] at hf
  | some s =>
      simp [titleEvents] at h
      subst h
      exact ⟨s, rfl⟩

theorem sidebarEvents_classify (ev : UIEvent) (h : ev ∈ sidebarEvents) :
    isFailureEvent ev = false := by
  simp [sidebarEvents] at h
  rcases h with h | h <;> subst h <;> rfl

theorem predictionEvents_classify (m : Model) (f : FeatureValues) (ev : UIEvent)
    (h : ev ∈ predictionEvents m f) (hf : isFailureEvent ev = true) :
    fromPredictionFailure ev := by
  unfold predictionEvents at h
  cases hp : m.predict (input_array f) with
  | error s =>
      rw [hp] at h
      simp at h
      rcases h with h | h
      · subst h; simp [isFailureEvent] at hf
      · subst h; exact ⟨s, rfl⟩
  | ok ys =>
      rw [hp] at h
      cases ys with
      | nil =>
          simp at h
          rcases h with h | h
          · subst h; simp [isFailureEvent] at hf
          · subst h; exact ⟨indexErrorText, rfl⟩
      | cons y tl =>
          simp at h
          rcases h with h | h <;> subst h <;> simp [isFailureEvent] at hf

theorem imageSection_classify (files : String → Bool)
    (sub desc file caption warnMsg : String) (ev : UIEvent)
    (h : ev ∈ imageSection files sub desc file caption warnMsg)
    (hf : isFailureEvent ev = true) :
    ev = UIEvent.warning warnMsg ∧ files file = false := by
  unfold imageSection at h
  cases hff : files file <;> rw [hff] at h <;> simp at h
  · rcases h with h | h | h
    · subst h; simp [isFailureEvent] at hf
    · subst h; simp [isFailureEvent] at hf
    · subst h; exact ⟨rfl, rfl⟩
  · rcases h with h | h | h <;> subst h <;> simp [isFailureEvent] at hf

theorem vizEvents_classify (files : String → Bool) (ev : UIEvent)
    (h : ev ∈ vizEvents files) (hf : isFailureEvent ev = true) :
    fromMissingImage ev := by
  unfold vizEvents at h
  rcases List.mem_append.mp h with h' | hF
  · rcases List.mem_append.mp h' with h'' | h3
    · rcases List.mem_append.mp h'' with h''' | h2
      · rcases List.mem_append.mp h''' with hA | h1
        · simp at hA
          rcases hA with hA | hA <;> subst hA <;> simp [isFailureEvent] at hf
        · rw [fromMissingImage]
          exact Or.inl (imageSection_classify _ _ _ _ _ _ _ h1 hf).1
      · rw [fromMissingImage]
        exact Or.inr (Or.inl (imageSection_classify _ _ _ _ _ _ _ h2 hf).1)
    · rw [fromMissingImage]
      exact Or.inr (Or.inr (imageSection_classify _ _ _ _ _ _ _ h3 hf).1)
  · simp at hF
    rcases hF with hF | hF | hF <;> subst hF <;> simp [isFailureEvent] at hf

theorem mem_runScript_ok (e : Env) (m : Model) (ev : UIEvent)
    (hm : e.loadModel model_path = Except.ok m) :
    ev ∈ (runScript e).events ↔
      ev = UIEvent.success loadSuccessMsg ∨ ev ∈ titleEvents e.titleFails ∨
        ev ∈ sidebarEvents ∨
        (e.predictButton = true ∧ ev ∈ predictionEvents m (widgetValues e.raw)) ∨
        ev ∈ vizEvents e.files := by
  simp only [runScript, runScriptCore, hm]
  cases hb : e.predictButton <;>
    simp [List.mem_append, List.mem_cons, or_assoc]

theorem titleEvents_no_warning (t : Option String) (w : String) :
    UIEvent.warning w ∉ titleEvents t := by
  intro h
  rcases titleEvents_classify t _ h rfl with ⟨s, hs⟩
  simp at hs

theorem predictionEvents_no_warning (m : Model) (f : FeatureValues) (w : String) :
    UIEvent.warning w ∉ predictionEvents m f := by
  intro h
  rcases predictionEvents_classify m f _ h rfl with ⟨s, hs⟩
  simp at hs

theorem titleEvents_no_image (t : Option String) (a c : String) :
    UIEvent.image a c ∉ titleEvents t := by
  intro h
  cases t <;> simp [titleEvents] at h

theorem predictionEvents_no_image (m : Model) (f : FeatureValues) (a c : String) :
    UIEvent.image a c ∉ predictionEvents m f := by
  intro h
  unfold predictionEvents at h
  cases hp : m.predict (input_array f) <;> rw [hp] at h
  · simp at h
  · rename_i ys
    cases ys <;> simp at h

theorem filter_shown_titleEvents (t : Option String) :
    (titleEvents t).filter isShownEvent = [] := by
  cases t <;> rfl

theorem filter_shown_sidebar : sidebarEvents.filter isShownEvent = [] := rfl

theorem filter_shown_vizEvents (files : String → Bool) :
    (vizEvents files).filter isShownEvent = [] := by
  unfold vizEvents imageSection
  cases h1 : files first_layer_img <;> cases h2 : files meta_layer_img <;>
    cases h3 : files overall_img <;> rfl

theorem vizEvents_warning_iff (files : String → Bool) (w : String) :
    UIEvent.warning w ∈ vizEvents files ↔
      (w = firstWarn ∧ files first_layer_img = false) ∨
      (w = metaWarn ∧ files meta_layer_img = false) ∨
      (w = overallWarn ∧ files overall_img = false) := by
  unfold vizEvents imageSection
  cases h1 : files first_layer_img <;> cases h2 : files meta_layer_img <;>
    cases h3 : files overall_img <;> simp

theorem vizEvents_image_iff (files : String → Bool) (a c : String) :
    UIEvent.image a c ∈ vizEvents files ↔
      (a = first_layer_img ∧ c = firstCaption ∧ files first_layer_img = true) ∨
      (a = meta_layer_img ∧ c = metaCaption ∧ files meta_layer_img = true) ∨
      (a = overall_img ∧ c = overallCaption ∧ files overall_img = true) := by
  unfold vizEvents imageSection
  cases h1 : files first_layer_img <;> cases h2 : files meta_layer_img <;>
    cases h3 : files overall_img <;> simp

theorem run_warning_iff (e : Env) (m : Model) (w : String)
    (hm : e.loadModel model_path = Except.ok m) :
    UIEvent.warning w ∈ (runScript e).events ↔
      UIEvent.warning w ∈ vizEvents e.files := by
  rw [mem_runScript_ok e m _ hm]
  constructor
  · rintro (h | h | h | ⟨hb, h⟩ | h)
    · simp at h
    · exact absurd h (titleEvents_no_warning _ _)
    · simp [sidebarEvents] at h
    · exact absurd h (predictionEvents_no_warning _ _ _)
    · exact h
  · exact fun h => Or.inr (Or.inr (Or.inr (Or.inr h)))

theorem run_image_iff (e : Env) (m : Model) (a c : String)
    (hm : e.loadModel model_path = Except.ok m) :
    UIEvent.image a c ∈ (runScript e).events ↔
      UIEvent.image a c ∈ vizEvents e.files := by
  rw [mem_runScript_ok e m _ hm]
  constructor
  · rintro (h | h | h | ⟨hb, h⟩ | h)
    · simp at h
    · exact absurd h (titleEvents_no_image _ _ _)
    · simp [sidebarEvents] at h
    · exact absurd h (predictionEvents_no_image _ _ _ _)
    · exact h
  · exact fun h => Or.inr (Or.inr (Or.inr (Or.inr h)))

theorem number_input_bounds (b v : ℚ) (hb : 0 ≤ b) :
    0 ≤ number_input 0 b v ∧ number_input 0 b v ≤ b :=
  ⟨le_max_left 0 _, max_le hb (min_le_left b v)⟩

theorem np_flatten_reshapeColumn (l : List ℚ) :
    np_flatten (reshapeColumn l) = l := by
  induction l with
  | nil => rfl
  | cons a tl ih => simpa [np_flatten, reshapeColumn] using ih

theorem reshapeColumn_rows_one (l : List ℚ) :
    ((reshapeColumn l).all fun row => row.length == 1) = true := by
  simp [reshapeColumn]

/-! ### Claim theorems -/

/-- C1: when the Predict button is pressed and the model loaded, the script
calls the loaded model's predict exactly once, on the single-row reshape of
the 12-element vector [SEX, AGE, WT, Single_Dose, Daily_Dose, SCR, CLCR,
BUN, ALT, AST, CL, V], in that fixed positional order. -/
theorem C1_predict_receives_fixed_vector (e : Env) (m : Model)
    (hm : e.loadModel model_path = Except.ok m) (hb : e.predictButton = true) :
    (runScript e).predictCalls = [[featureList (widgetValues e.raw)]] ∧
    featureList (widgetValues e.raw) =
      [(widgetValues e.raw).SEX, (widgetValues e.raw).AGE, (widgetValues e.raw).WT,
       (widgetValues e.raw).Single_Dose, (widgetValues e.raw).Daily_Dose,
       (widgetValues e.raw).SCR, (widgetValues e.raw).CLCR, (widgetValues e.raw).BUN,
       (widgetValues e.raw).ALT, (widgetValues e.raw).AST, (widgetValues e.raw).CL,
       (widgetValues e.raw).V] ∧
    (featureList (widgetValues e.raw)).length = 12 := by
  refine ⟨?_, rfl, rfl⟩
  simp [runScript, runScriptCore, hm, hb, input_array]

/-- Witness for C1 at a concrete environment. -/
theorem C1_witness :
    (runScript demoEnv).predictCalls = [[featureList (widgetValues demoEnv.raw)]] :=
  (C1_predict_receives_fixed_vector demoEnv demoModel rfl rfl).1

/-- C4: the adapter only reshapes around the wrapped regressor: fit delegates
to the wrapped fit with X converted to its array and y reshaped to an (n, 1)
column (returning the updated wrapper, i.e. self), and predict delegates to
the wrapped predict on X's array and flattens the result; flattening an
(n, 1) column recovers the original n values. -/
theorem C4_wrapper_reshapes (w : TabNetRegressorWrapper) (X Z : XInput) (y : YInput) :
    (w.fit X y).model.fitCalls =
      w.model.fitCalls ++ [(X.toValues, reshapeColumn y.toValues)] ∧
    (reshapeColumn y.toValues).length = y.toValues.length ∧
    ((reshapeColumn y.toValues).all fun row => row.length == 1) = true ∧
    w.predict Z = np_flatten (w.model.predict Z.toValues) ∧
    np_flatten (reshapeColumn y.toValues) = y.toValues :=
  ⟨rfl, by simp [reshapeColumn], reshapeColumn_rows_one _, rfl,
    np_flatten_reshapeColumn _⟩

/-- C10: the adapter is input-representation invariant: predict on a
DataFrame equals predict on its value array, fit on a DataFrame equals fit
on its value array, and fit on a Series y equals fit on its value array. -/
theorem C10_representation_invariance (w : TabNetRegressorWrapper)
    (v : List (List ℚ)) (yv : List ℚ) (X : XInput) (y : YInput) :
    w.predict (XInput.dataFrame v) = w.predict (XInput.ndarray v) ∧
    w.fit (XInput.dataFrame v) y = w.fit (XInput.ndarray v) y ∧
    w.fit X (YInput.series yv) = w.fit X (YInput.ndarray yv) :=
  ⟨rfl, rfl, rfl⟩

/-- C8: if loading the model fails, the run consists of exactly the one
error message, the exception is re-raised (the run aborts), and no widgets,
prediction, or image sections are reached; in particular predict is never
called. -/
theorem C8_load_failure_aborts (e : Env) (s : String)
    (h : e.loadModel model_path = Except.error s) :
    (runScript e).events = [UIEvent.error ("Failed to load model: " ++ s)] ∧
    (runScript e).aborted = true ∧
    (runScript e).predictCalls = [] := by
  refine ⟨?_, ?_, ?_⟩ <;> simp [runScript, runScriptCore, h]

/-- Witness for C8 at a concrete environment whose load raises "oops". -/
theorem C8_witness :
    (runScript demoEnvLoadFail).events =
      [UIEvent.error ("Failed to load model: " ++ "oops")] ∧
    (runScript demoEnvLoadFail).aborted = true ∧
    (runScript demoEnvLoadFail).predictCalls = [] :=
  C8_load_failure_aborts demoEnvLoadFail "oops" rfl

/-- C9: for every widget interaction, the gender value is 0 or 1 and each of
the other eleven feature values is non-negative and bounded by the widget's
max_value (18, 100, 60, 2400, 150, 200, 50, 150, 150, 100, 1000). -/
theorem C9_widget_bounds (r : RawInputs) :
    ((widgetValues r).SEX = 0 ∨ (widgetValues r).SEX = 1) ∧
    (0 ≤ (widgetValues r).AGE ∧ (widgetValues r).AGE ≤ 18) ∧
    (0 ≤ (widgetValues r).WT ∧ (widgetValues r).WT ≤ 100) ∧
    (0 ≤ (widgetValues r).Single_Dose ∧ (widgetValues r).Single_Dose ≤ 60) ∧
    (0 ≤ (widgetValues r).Daily_Dose ∧ (widgetValues r).Daily_Dose ≤ 2400) ∧
    (0 ≤ (widgetValues r).SCR ∧ (widgetValues r).SCR ≤ 150) ∧
    (0 ≤ (widgetValues r).CLCR ∧ (widgetValues r).CLCR ≤ 200) ∧
    (0 ≤ (widgetValues r).BUN ∧ (widgetValues r).BUN ≤ 50) ∧
    (0 ≤ (widgetValues r).ALT ∧ (widgetValues r).ALT ≤ 150) ∧
    (0 ≤ (widgetValues r).AST ∧ (widgetValues r).AST ≤ 150) ∧
    (0 ≤ (widgetValues r).CL ∧ (widgetValues r).CL ≤ 100) ∧
    (0 ≤ (widgetValues r).V ∧ (widgetValues r).V ≤ 1000) := by
  refine ⟨?_, ?_, ?_, ?_, ?_, ?_, ?_, ?_, ?_, ?_, ?_, ?_⟩
  · rcases Nat.mod_two_eq_zero_or_one r.sexIdx with h | h <;>
      simp [widgetValues, selectbox, h]
  all_goals exact number_input_bounds _ _ (by norm_num)

/-- C7: every run with a loaded model emits the load success message first,
then the title block, then the sidebar widgets area, then the prediction
block exactly when the button was pressed, then the image sections; predict
is called exactly on the button press, and in any run at all a predict call
implies the model had loaded. -/
theorem C7_linear_order (e : Env) (m : Model)
    (hm : e.loadModel model_path = Except.ok m) :
    (runScript e).events =
      UIEvent.success loadSuccessMsg ::
        (titleEvents e.titleFails ++ sidebarEvents ++
          (if e.predictButton then predictionEvents m (widgetValues e.raw) else []) ++
          vizEvents e.files) ∧
    (runScript e).predictCalls =
      (if e.predictButton then [input_array (widgetValues e.raw)] else []) ∧
    (∀ e2 : Env, (runScript e2).predictCalls ≠ [] →
      ∃ m2, e2.loadModel model_path = Except.ok m2) := by
  refine ⟨by simp [runScript, runScriptCore, hm], by simp [runScript, runScriptCore, hm], ?_⟩
  intro e2 hcalls
  cases h2 : e2.loadModel model_path with
  | error s =>
      exact absurd (by simp [runScript, runScriptCore, h2]) hcalls
  | ok m2 => exact ⟨m2, rfl⟩

/-- Witness for C7 at a concrete environment. -/
theorem C7_witness :
    (runScript demoEnv).events =
      UIEvent.success loadSuccessMsg ::
        (titleEvents demoEnv.titleFails ++ sidebarEvents ++
          (if demoEnv.predictButton then
            predictionEvents demoModel (widgetValues demoEnv.raw) else []) ++
          vizEvents demoEnv.files) :=
  (C7_linear_order demoEnv demoModel rfl).1

/-- C3: the displayed prediction is a deterministic function of the loaded
model artifact and the 12 widget inputs alone: two runs whose environments
agree on the model returned for the convention path and on the widget
interaction, with the button pressed in both, show the same predictions,
whatever their image files or title-block behaviour. -/
theorem C3_prediction_deterministic (e1 e2 : Env)
    (hload : e1.loadModel model_path = e2.loadModel model_path)
    (hraw : e1.raw = e2.raw)
    (hb1 : e1.predictButton = true) (hb2 : e2.predictButton = true) :
    shownPredictions (runScript e1) = shownPredictions (runScript e2) := by
  unfold shownPredictions runScript
  rw [← hload, hraw, hb1, hb2]
  cases hl : e1.loadModel model_path with
  | error s => rfl
  | ok m =>
      simp only [runScriptCore, List.filter_cons, List.filter_append,
        filter_shown_titleEvents, filter_shown_sidebar, filter_shown_vizEvents]

/-- Witness for C3: same model and inputs, different title-block behaviour
and image files, same shown predictions. -/
theorem C3_witness :
    shownPredictions (runScript demoEnv) = shownPredictions (runScript demoEnvAlt) :=
  C3_prediction_deterministic demoEnv demoEnvAlt rfl rfl rfl rfl

/-- C6: the run depends on `joblib.load` only through the convention path
(two environments agreeing there and on all user-facing inputs run
identically; no flag or configuration exists), and on a successful
prediction the displayed output is the first element of the model's
prediction for the assembled input vector. -/
theorem C6_convention_path_and_output (e1 e2 : Env) (m : Model) (y : ℚ) (ys : List ℚ)
    (hload : e1.loadModel model_path = e2.loadModel model_path)
    (ht : e1.titleFails = e2.titleFails) (hraw : e1.raw = e2.raw)
    (hb : e1.predictButton = e2.predictButton) (hfiles : e1.files = e2.files)
    (hm : e1.loadModel model_path = Except.ok m) (hbtn : e1.predictButton = true)
    (hp : m.predict (input_array (widgetValues e1.raw)) = Except.ok (y :: ys)) :
    runScript e1 = runScript e2 ∧
    UIEvent.predictionShown y ∈ (runScript e1).events := by
  constructor
  · unfold runScript
    rw [← hload, ht, hraw, hb, hfiles]
  · rw [mem_runScript_ok e1 m _ hm]
    refine Or.inr (Or.inr (Or.inr (Or.inl ⟨hbtn, ?_⟩)))
    unfold predictionEvents
    rw [hp]
    simp

/-- Witness for C6 at a concrete environment whose model returns [7]. -/
theorem C6_witness :
    runScript demoEnv = runScript demoEnv ∧
    UIEvent.predictionShown 7 ∈ (runScript demoEnv).events :=
  C6_convention_path_and_output demoEnv demoEnv demoModel 7 []
    rfl rfl rfl rfl rfl rfl rfl rfl

/-- C5: with the model loaded, whatever the button state, all three image
sections are rendered: each section's subheader appears, its image appears
exactly when the file is present, and its fallback warning appears exactly
when the file is absent. -/
theorem C5_image_sections (e : Env) (m : Model)
    (hm : e.loadModel model_path = Except.ok m) :
    UIEvent.subheader "1. First-layer Base Learners" ∈ (runScript e).events ∧
    UIEvent.subheader "2. Second-layer Meta-Learner" ∈ (runScript e).events ∧
    UIEvent.subheader "3. Overall Stacking Model" ∈ (runScript e).events ∧
    (UIEvent.image first_layer_img firstCaption ∈ (runScript e).events ↔
      e.files first_layer_img = true) ∧
    (UIEvent.warning firstWarn ∈ (runScript e).events ↔
      e.files first_layer_img = false) ∧
    (UIEvent.image meta_layer_img metaCaption ∈ (runScript e).events ↔
      e.files meta_layer_img = true) ∧
    (UIEvent.warning metaWarn ∈ (runScript e).events ↔
      e.files meta_layer_img = false) ∧
    (UIEvent.image overall_img overallCaption ∈ (runScript e).events ↔
      e.files overall_img = true) ∧
    (UIEvent.warning overallWarn ∈ (runScript e).events ↔
      e.files overall_img = false) := by
  refine ⟨?_, ?_, ?_, ?_, ?_, ?_, ?_, ?_, ?_⟩
  · rw [mem_runScript_ok e m _ hm]
    refine Or.inr (Or.inr (Or.inr (Or.inr ?_)))
    simp [vizEvents, imageSection]
  · rw [mem_runScript_ok e m _ hm]
    refine Or.inr (Or.inr (Or.inr (Or.inr ?_)))
    simp [vizEvents, imageSection]
  · rw [mem_runScript_ok e m _ hm]
    refine Or.inr (Or.inr (Or.inr (Or.inr ?_)))
    simp [vizEvents, imageSection]
  · rw [run_image_iff e m _ _ hm, vizEvents_image_iff]
    constructor
    · rintro (⟨h1, h2, h3⟩ | ⟨h1, h2, h3⟩ | ⟨h1, h2, h3⟩)
      · exact h3
      · exact absurd h1 (by decide)
      · exact absurd h1 (by decide)
    · exact fun h => Or.inl ⟨rfl, rfl, h⟩
  · rw [run_warning_iff e m _ hm, vizEvents_warning_iff]
    constructor
    · rintro (⟨h1, h2⟩ | ⟨h1, h2⟩ | ⟨h1, h2⟩)
      · exact h2
      · exact absurd h1 (by decide)
      · exact absurd h1 (by decide)
    · exact fun h => Or.inl ⟨rfl, h⟩
  · rw [run_image_iff e m _ _ hm, vizEvents_image_iff]
    constructor
    · rintro (⟨h1, h2, h3⟩ | ⟨h1, h2, h3⟩ | ⟨h1, h2, h3⟩)
      · exact absurd h1 (by decide)
      · exact h3
      · exact absurd h1 (by decide)
    · exact fun h => Or.inr (Or.inl ⟨rfl, rfl, h⟩)
  · rw [run_warning_iff e m _ hm, vizEvents_warning_iff]
    constructor
    · rintro (⟨h1, h2⟩ | ⟨h1, h2⟩ | ⟨h1, h2⟩)
      · exact absurd h1 (by decide)
      · exact h2
      · exact absurd h1 (by decide)
    · exact fun h => Or.inr (Or.inl ⟨rfl, h⟩)
  · rw [run_image_iff e m _ _ hm, vizEvents_image_iff]
    constructor
    · rintro (⟨h1, h2, h3⟩ | ⟨h1, h2, h3⟩ | ⟨h1, h2, h3⟩)
      · exact absurd h1 (by decide)
      · exact absurd h1 (by decide)
      · exact h3
    · exact fun h => Or.inr (Or.inr ⟨rfl, rfl, h⟩)
  · rw [run_warning_iff e m _ hm, vizEvents_warning_iff]
    constructor
    · rintro (⟨h1, h2⟩ | ⟨h1, h2⟩ | ⟨h1, h2⟩)
      · exact absurd h1 (by decide)
      · exact absurd h1 (by decide)
      · exact h2
    · exact fun h => Or.inr (Or.inr ⟨rfl, h⟩)

/-- Witness for C5 at concrete environments with images present and with
images absent. -/
theorem C5_witness :
    (UIEvent.image first_layer_img firstCaption ∈ (runScript demoEnv).events ↔
      demoEnv.files first_layer_img = true) ∧
    (UIEvent.warning overallWarn ∈ (runScript demoEnvAlt).events ↔
      demoEnvAlt.files overall_img = false) :=
  ⟨(C5_image_sections demoEnv demoModel rfl).2.2.2.1,
   (C5_image_sections demoEnvAlt demoModel rfl).2.2.2.2.2.2.2.2⟩

/-- C2 (counterexample): the claim that failures are surfaced at only three
points — model load, prediction, missing image — is false on the code: the
page-title try/except of lines 45-51 surfaces a fourth, distinct error
message when the title block raises. -/
theorem C2_counterexample : ¬ errorsAtThreePointsOnly := by
  intro h
  have hmem : UIEvent.error ("Error setting page title: " ++ "boom") ∈
      (runScript demoEnvAlt).events := by
    rw [mem_runScript_ok demoEnvAlt demoModel _ rfl]
    exact Or.inr (Or.inl (List.mem_singleton.mpr rfl))
  rcases h demoEnvAlt _ hmem rfl with ⟨s, hs⟩ | ⟨s, hs⟩ | hs
  · exact string_ne_append_of_get _ _ s 0 'E' 'F'
      (by decide) (by decide) (by decide) (by decide) (UIEvent.error.inj hs)
  · exact string_ne_append_of_get _ _ s 6 's' 'd'
      (by decide) (by decide) (by decide) (by decide) (UIEvent.error.inj hs)
  · rcases hs with hs | hs | hs <;> exact UIEvent.noConfusion hs

/-- C2 (amended): errors are caught at four points — model load failure,
page-title rendering failure, prediction failure, and missing image file —
and every user-visible failure output of every run is the message of one of
those four catch sites, generic exception text (or the fixed image warning),
with no retry and no recovery. -/
theorem C2_amended_four_points (e : Env) (ev : UIEvent)
    (hmem : ev ∈ (runScript e).events) (hf : isFailureEvent ev = true) :
    fromLoadFailure ev ∨ fromTitleFailure ev ∨ fromPredictionFailure ev ∨
      fromMissingImage ev := by
  cases hl : e.loadModel model_path with
  | error s =>
      have hev : (runScript e).events =
          [UIEvent.error ("Failed to load model: " ++ s)] := by
        simp [runScript, runScriptCore, hl]
      rw [hev, List.mem_singleton] at hmem
      subst hmem
      exact Or.inl ⟨s, rfl⟩
  | ok m =>
      rw [mem_runScript_ok e m _ hl] at hmem
      rcases hmem with h | h | h | ⟨hb, h⟩ | h
      · subst h; simp [isFailureEvent] at hf
      · exact Or.inr (Or.inl (titleEvents_classify _ _ h hf))
      · have hs := sidebarEvents_classify _ h
        rw [hs] at hf
        exact Bool.noConfusion hf
      · exact Or.inr (Or.inr (Or.inl (predictionEvents_classify _ _ _ h hf)))
      · exact Or.inr (Or.inr (Or.inr (vizEvents_classify _ _ h hf)))

/-- Witness for the amended C2 at a concrete environment whose load
raises. -/
theorem C2_amended_witness :
    UIEvent.error ("Failed to load model: " ++ "oops") ∈
      (runScript demoEnvLoadFail).events ∧
    (fromLoadFailure (UIEvent.error ("Failed to load model: " ++ "oops")) ∨
      fromTitleFailure (UIEvent.error ("Failed to load model: " ++ "oops")) ∨
      fromPredictionFailure (UIEvent.error ("Failed to load model: " ++ "oops")) ∨
      fromMissingImage (UIEvent.error ("Failed to load model: " ++ "oops"))) := by
  have hmem : UIEvent.error ("Failed to load model: " ++ "oops") ∈
      (runScript demoEnvLoadFail).events := List.mem_singleton.mpr rfl
  exact ⟨hmem, C2_amended_four_points demoEnvLoadFail _ hmem rfl⟩
